import Mathlib

/- Verification development for the summoner-insights repository: a shallow
embedding of the ingestion-normalization layer (summoner_insights.py) and the
analytics/report layer (summoner_insights_mcp.py), with theorems checking the
behavioural claims of the specification against this embedding. -/

namespace SummonerInsights

/- Python round() uses round-half-to-even; round(q, 2) is modelled on exact
rationals as half-even rounding of q * 100. -/

/-- Round-half-to-even of a rational to an integer, mirroring Python round(). -/
def pyRoundHalfEven (q : ℚ) : ℤ :=
  let f : ℤ := Int.floor q
  let frac : ℚ := q - (f : ℚ)
  if frac < 1 / 2 then f
  else if 1 / 2 < frac then f + 1
  else if f % 2 = 0 then f else f + 1

/-- Python round(q, 2): round half-to-even at two decimal places. -/
def pyRound2 (q : ℚ) : ℚ := ((pyRoundHalfEven (q * 100) : ℤ) : ℚ) / 100

/-- Check whether the first list is an initial segment of the second. -/
def listIsStart : List Char → List Char → Bool
  | [], _ => true
  | _ :: _, [] => false
  | a :: as, b :: bs => a == b && listIsStart as bs

/-- Check whether the first list occurs as a contiguous run inside the second. -/
def listOccurs (pat : List Char) : List Char → Bool
  | [] => listIsStart pat []
  | b :: bs => listIsStart pat (b :: bs) || listOccurs pat bs

/-- Python substring membership test `pat in s` (also SQL LIKE with percent signs). -/
def pyInStr (pat s : String) : Bool := listOccurs pat.data s.data

/-- Test whether the string s begins with the string pre. -/
def strStarts (pre s : String) : Bool := listIsStart pre.data s.data

/-- Python str() of an optional integer: "None" when absent. -/
def pyOptIntStr : Option Int → String
  | none => "None"
  | some n => toString n

/-- Python str() of an optional string: "None" when absent, quoted otherwise. -/
def pyOptStrStr : Option String → String
  | none => "None"
  | some s => "\x27" ++ s ++ "\x27"

/-- Python str() of a list of integers. -/
def pyIntListStr (l : List Int) : String :=
  "[" ++ String.intercalate ", " (l.map toString) ++ "]"

/-- Python str() of a dict with string keys, given its rendered values; the
empty dict renders as the empty string (str(details) if details else ""). -/
def pyDictStr (pairs : List (String × String)) : String :=
  if pairs.isEmpty then ""
  else
    "\x7b" ++
      String.intercalate ", " (pairs.map (fun kv => "\x27" ++ kv.1 ++ "\x27: " ++ kv.2)) ++
      "\x7d"

/- Data model of the raw match document (the fields read by the normalizer). -/

/-- One participant record of a match document, with the fields read by
extract_player_stats. -/
structure MatchParticipant where
  puuid : String
  championName : String
  kills : Int
  deaths : Int
  assists : Int
  totalMinionsKilled : Int
  neutralMinionsKilled : Int
  goldEarned : Int
  totalDamageDealtToChampions : Int
  totalDamageTaken : Int
  visionScore : Int
  win : Bool
  teamPosition : String
  item0 : Int
  item1 : Int
  item2 : Int
  item3 : Int
  item4 : Int
  item5 : Int
deriving DecidableEq

/-- Metadata block of a match document. -/
structure MatchMetadata where
  matchId : String
deriving DecidableEq

/-- Info block of a match document. -/
structure MatchInfo where
  gameCreation : Int
  gameDuration : Int
  gameMode : String
  participants : List MatchParticipant
deriving DecidableEq

/-- A raw match document. -/
structure MatchData where
  metadata : MatchMetadata
  info : MatchInfo
deriving DecidableEq

/-- The normalized Match row produced by extract_player_stats and stored in the
matches table. The source formats game_creation (epoch milliseconds) into a
local-time text; the embedding keeps the raw epoch value, which is
order-preserving. -/
structure PlayerStats where
  match_id : String
  game_creation : Int
  game_duration : Int
  game_mode : String
  champion : String
  kills : Int
  deaths : Int
  assists : Int
  kda : ℚ
  cs : Int
  gold_earned : Int
  damage_dealt : Int
  damage_taken : Int
  vision_score : Int
  win : Bool
  position : String
  items : List Int
deriving DecidableEq

/-- Mirrors extract_player_stats in summoner_insights.py: locate the tracked
participant by puuid (first match wins) and map its raw fields to the Match
row, computing KDA and combined creep score. -/
def extract_player_stats (match_data : MatchData) (puuid : String) :
    Option PlayerStats :=
  match match_data.info.participants.find? (fun p => p.puuid == puuid) with
  | none => none
  | some p =>
    some
      { match_id := match_data.metadata.matchId
        game_creation := match_data.info.gameCreation
        game_duration := match_data.info.gameDuration
        game_mode := match_data.info.gameMode
        champion := p.championName
        kills := p.kills
        deaths := p.deaths
        assists := p.assists
        kda := pyRound2 (((p.kills + p.assists : ℤ) : ℚ) / ((max p.deaths 1 : ℤ) : ℚ))
        cs := p.totalMinionsKilled + p.neutralMinionsKilled
        gold_earned := p.goldEarned
        damage_dealt := p.totalDamageDealtToChampions
        damage_taken := p.totalDamageTaken
        vision_score := p.visionScore
        win := p.win
        position := p.teamPosition
        items := [p.item0, p.item1, p.item2, p.item3, p.item4, p.item5] }

/- Data model of the raw timeline document. -/

/-- A discrete timeline event, with the optional fields read by the relevance
filter and the detail extractor (absent JSON keys are modelled as none; an
absent assistingParticipantIds key is the default empty list). -/
structure Event where
  type : String
  timestamp : Int
  participantId : Option Int
  killerId : Option Int
  victimId : Option Int
  assistingParticipantIds : List Int
  itemId : Option Int
  monsterType : Option String
  monsterSubType : Option String
  wardType : Option String
  position : Option (Int × Int)
deriving DecidableEq

/-- Mirrors _is_player_event: the event is relevant when the tracked slot is
the direct actor, the killer, the victim, or listed among assisting
participants on one of the three elimination event types. -/
def _is_player_event (event : Event) (participant_id : Int) : Bool :=
  event.participantId == some participant_id ||
  event.killerId == some participant_id ||
  event.victimId == some participant_id ||
  ((event.type == "CHAMPION_KILL" || event.type == "ELITE_MONSTER_KILL" ||
      event.type == "BUILDING_KILL") &&
    event.assistingParticipantIds.contains participant_id)

/-- Mirrors _extract_event_details: a type-specific detail dict serialized with
Python str(); unrecognized types give the empty string. -/
def _extract_event_details (event : Event) : String :=
  if event.type == "CHAMPION_KILL" then
    pyDictStr
      [("killer", pyOptIntStr event.killerId),
       ("victim", pyOptIntStr event.victimId),
       ("assistants", pyIntListStr event.assistingParticipantIds)]
  else if event.type == "ITEM_PURCHASED" then
    pyDictStr [("item_id", pyOptIntStr event.itemId)]
  else if event.type == "ELITE_MONSTER_KILL" then
    pyDictStr
      [("monster_type", pyOptStrStr event.monsterType),
       ("monster_subtype", pyOptStrStr event.monsterSubType)]
  else if event.type == "WARD_PLACED" then
    pyDictStr [("ward_type", pyOptStrStr event.wardType)]
  else if event.type == "WARD_KILL" then
    pyDictStr [("ward_type", pyOptStrStr event.wardType)]
  else ""

/-- One participant entry of a timeline document: stable identifier plus the
per-match integer slot. -/
structure TlParticipant where
  puuid : String
  participantId : Int
deriving DecidableEq

/-- Per-participant state inside one frame (the fields read by the snapshot
builder; position may be absent). -/
structure ParticipantFrame where
  minionsKilled : Int
  jungleMinionsKilled : Int
  totalGold : Int
  xp : Int
  level : Int
  position : Option (Int × Int)
deriving DecidableEq

/-- One timeline frame: a timestamp, per-slot participant frames keyed by slot,
and an optional list of events (none when the frame has no events key). -/
structure Frame where
  timestamp : Int
  participantFrames : List (Int × ParticipantFrame)
  events : Option (List Event)
deriving DecidableEq

/-- Info block of a timeline document. -/
structure TimelineInfo where
  frames : List Frame
  participants : List TlParticipant
deriving DecidableEq

/-- A raw timeline document; info is none when the document is empty or has no
info key. -/
structure TimelineData where
  info : Option TimelineInfo
deriving DecidableEq

/-- A normalized per-minute snapshot produced by extract_timeline_data (note:
it carries no vision field). -/
structure Snapshot where
  minute : Int
  cs : Int
  gold : Int
  xp : Int
  level : Int
  position_x : Int
  position_y : Int
deriving DecidableEq

/-- A normalized event record produced by extract_timeline_data. -/
structure EventData where
  timestamp : Int
  event_type : String
  position_x : Int
  position_y : Int
  details : String
deriving DecidableEq

/-- Build the snapshot of one participant frame (position defaults to (0,0)
when absent). -/
def snapshotOfFrame (minute : Int) (pf : ParticipantFrame) : Snapshot :=
  { minute := minute
    cs := pf.minionsKilled + pf.jungleMinionsKilled
    gold := pf.totalGold
    xp := pf.xp
    level := pf.level
    position_x := (pf.position.map (fun p => p.1)).getD 0
    position_y := (pf.position.map (fun p => p.2)).getD 0 }

/-- Build the normalized event record of one relevant event (position defaults
to (0,0) when absent). -/
def eventDataOf (event : Event) : EventData :=
  { timestamp := event.timestamp
    event_type := event.type
    position_x := (event.position.map (fun p => p.1)).getD 0
    position_y := (event.position.map (fun p => p.2)).getD 0
    details := _extract_event_details event }

/-- Process one frame of the timeline: emit the snapshot of the tracked slot
when the frame carries one, then append the relevant events. -/
def processFrame (participant_id : Int) (acc : List Snapshot × List EventData)
    (frame : Frame) : List Snapshot × List EventData :=
  let minute := Int.fdiv frame.timestamp 60000
  let acc1 :=
    match frame.participantFrames.find? (fun kv => kv.1 == participant_id) with
    | some kv => (acc.1 ++ [snapshotOfFrame minute kv.2], acc.2)
    | none => acc
  match frame.events with
  | none => acc1
  | some evs =>
    (acc1.1,
      acc1.2 ++ (evs.filter (fun e => _is_player_event e participant_id)).map eventDataOf)

/-- Mirrors extract_timeline_data: resolve the tracked participant slot, then
walk the frames in order, producing the snapshot and event sequences. A missing
info block, an unresolved slot (including the Python-falsy slot 0), or an empty
frame list yields empty sequences. -/
def extract_timeline_data (timeline_data : TimelineData) (puuid : String) :
    List Snapshot × List EventData :=
  match timeline_data.info with
  | none => ([], [])
  | some info =>
    match (info.participants.find? (fun p => p.puuid == puuid)).map
        (fun p => p.participantId) with
    | none => ([], [])
    | some participant_id =>
      if participant_id = 0 then ([], [])
      else info.frames.foldl (processFrame participant_id) ([], [])

/- The store writer: the three tables are modelled as lists of rows, with
INSERT OR REPLACE realised as delete-conflicting-then-append. -/

/-- A row of the timeline_snapshots table (primary key match_id, minute). -/
structure SnapshotRow where
  match_id : String
  minute : Int
  cs : Int
  gold : Int
  xp : Int
  level : Int
  vision_score : Int
  position_x : Int
  position_y : Int
deriving DecidableEq

/-- A row of the timeline_events table (synthetic autoincrement primary key). -/
structure EventRow where
  id : Nat
  match_id : String
  timestamp : Int
  event_type : String
  position_x : Int
  position_y : Int
  details : String
deriving DecidableEq

/-- The persistent store: the three tables plus the autoincrement counter of
timeline_events. -/
structure Database where
  matchesTable : List PlayerStats
  snapshots : List SnapshotRow
  events : List EventRow
  nextEventId : Nat
deriving DecidableEq

/-- INSERT OR REPLACE into matches: drop any row with the same match_id, then
append the new row. -/
def upsertMatchRow (rows : List PlayerStats) (s : PlayerStats) : List PlayerStats :=
  rows.filter (fun r => !(r.match_id == s.match_id)) ++ [s]

/-- Mirrors write_to_database: upsert every normalized Match row. -/
def write_to_database (db : Database) (stats_data : List PlayerStats) : Database :=
  { db with matchesTable := stats_data.foldl upsertMatchRow db.matchesTable }

/-- The snapshot row written for one normalized snapshot: the vision_score
column is the constant 0 in the source INSERT. -/
def snapRowOf (match_id : String) (s : Snapshot) : SnapshotRow :=
  { match_id := match_id
    minute := s.minute
    cs := s.cs
    gold := s.gold
    xp := s.xp
    level := s.level
    vision_score := 0
    position_x := s.position_x
    position_y := s.position_y }

/-- INSERT OR REPLACE into timeline_snapshots: drop any row with the same
(match_id, minute) key, then append the new row. -/
def upsertSnapshotRow (rows : List SnapshotRow) (r : SnapshotRow) : List SnapshotRow :=
  rows.filter (fun x => !(x.match_id == r.match_id && x.minute == r.minute)) ++ [r]

/-- The event row written for one normalized event, with a fresh autoincrement
id. -/
def eventRowOf (id : Nat) (match_id : String) (e : EventData) : EventRow :=
  { id := id
    match_id := match_id
    timestamp := e.timestamp
    event_type := e.event_type
    position_x := e.position_x
    position_y := e.position_y
    details := e.details }

/-- Event rows for a batch of normalized events, with consecutive fresh ids
starting at the given counter (an insert without an explicit id never conflicts,
so INSERT OR REPLACE appends). -/
def eventRowsFrom (match_id : String) : Nat → List EventData → List EventRow
  | _, [] => []
  | n, e :: es => eventRowOf n match_id e :: eventRowsFrom match_id (n + 1) es

/-- Mirrors write_timeline_to_database: no-op when both sequences are empty,
otherwise upsert each snapshot row and append one fresh event row per event. -/
def write_timeline_to_database (db : Database) (match_id : String)
    (snapshots : List Snapshot) (events : List EventData) : Database :=
  if snapshots.isEmpty && events.isEmpty then db
  else
    { db with
      snapshots :=
        snapshots.foldl (fun acc s => upsertSnapshotRow acc (snapRowOf match_id s))
          db.snapshots
      events := db.events ++ eventRowsFrom match_id db.nextEventId events
      nextEventId := db.nextEventId + events.length }

/- The MCP report layer (summoner_insights_mcp.py). Reports are pure functions
of the stored Database; SQL ORDER BY game_creation DESC is realised by an
insertion sort on the raw creation value. -/

/-- A text content block returned by a tool call. -/
structure TextContent where
  text : String
deriving DecidableEq

/-- The argument dictionary of a tool call (absent keys are none). -/
structure Args where
  limit : Option Int
  match_id : Option String
  matchCount : Option Int
  champion : Option String
deriving DecidableEq

/-- Insert one Match row into a list sorted by descending game_creation. -/
def insertByCreationDesc (m : PlayerStats) : List PlayerStats → List PlayerStats
  | [] => [m]
  | x :: xs =>
    if x.game_creation < m.game_creation then m :: x :: xs
    else x :: insertByCreationDesc m xs

/-- ORDER BY game_creation DESC over the matches table. -/
def orderByCreationDesc (rows : List PlayerStats) : List PlayerStats :=
  rows.foldl (fun acc m => insertByCreationDesc m acc) []

/-- Insert one snapshot row into a list sorted by ascending minute. -/
def insertByMinuteAsc (r : SnapshotRow) : List SnapshotRow → List SnapshotRow
  | [] => [r]
  | x :: xs => if r.minute ≤ x.minute then r :: x :: xs else x :: insertByMinuteAsc r xs

/-- ORDER BY minute over timeline_snapshots rows. -/
def orderByMinuteAsc (rows : List SnapshotRow) : List SnapshotRow :=
  rows.foldl (fun acc r => insertByMinuteAsc r acc) []

/-- Insert one event row into a list sorted by ascending timestamp. -/
def insertByTimestampAsc (r : EventRow) : List EventRow → List EventRow
  | [] => [r]
  | x :: xs =>
    if r.timestamp ≤ x.timestamp then r :: x :: xs else x :: insertByTimestampAsc r xs

/-- ORDER BY timestamp over timeline_events rows. -/
def orderByTimestampAsc (rows : List EventRow) : List EventRow :=
  rows.foldl (fun acc r => insertByTimestampAsc r acc) []

/-- Insert one integer into a list sorted ascending. -/
def insertIntAsc (n : Int) : List Int → List Int
  | [] => [n]
  | x :: xs => if n ≤ x then n :: x :: xs else x :: insertIntAsc n xs

/-- Sort a list of integers ascending (Python sorted). -/
def sortIntAsc (l : List Int) : List Int :=
  l.foldl (fun acc n => insertIntAsc n acc) []

/-- Python slice l[::5]: every fifth element starting at index 0. The first
argument counts how many elements are still to be skipped. -/
def everyFifthAux {α : Type _} : Nat → List α → List α
  | _, [] => []
  | 0, a :: as => a :: everyFifthAux 4 as
  | Nat.succ k, _ :: as => everyFifthAux k as

/-- Python slice l[::5]. -/
def takeEveryFifth {α : Type _} (l : List α) : List α := everyFifthAux 0 l

/-- Python slice s[-8:]: the last eight characters of a string. -/
def strLastEight (s : String) : String :=
  String.mk (s.data.drop (s.data.length - 8))

/-- Mirrors get_db_connection: the stored database when the file exists, an
error (FileNotFoundError) naming the path otherwise. -/
def get_db_connection (db_path : String) (file : Option Database) :
    Except String Database :=
  match file with
  | none => Except.error ("Database file not found at: " ++ db_path)
  | some db => Except.ok db

/-- Win/loss tag used by the recent-matches report. -/
def winLossTag (w : Bool) : String := if w then "🟢 WIN" else "🔴 LOSS"

/-- One match block of the recent-matches report. -/
def recentMatchBlock (m : PlayerStats) : String :=
  "## " ++ m.champion ++ " - " ++ winLossTag m.win ++ "\n" ++
  "**Match ID:** " ++ m.match_id ++ "\n" ++
  "**Date:** " ++ toString m.game_creation ++ " | **Duration:** " ++
    toString (Int.fdiv m.game_duration 60) ++ "m | **Mode:** " ++ m.game_mode ++
    " | **Position:** " ++ m.position ++ "\n" ++
  "**KDA:** " ++ toString m.kills ++ "/" ++ toString m.deaths ++ "/" ++
    toString m.assists ++ " (" ++ toString m.kda ++ ") | **CS:** " ++ toString m.cs ++
    " | **Gold:** " ++ toString m.gold_earned ++ " | **Vision:** " ++
    toString m.vision_score ++ "\n\n"

/-- Mirrors _get_recent_matches: the most recent rows, or an informative
message when the table is empty. -/
def _get_recent_matches (db : Database) (limit : Int) : List TextContent :=
  let ms := (orderByCreationDesc db.matchesTable).take limit.toNat
  if ms.isEmpty then [{ text := "No match data found in database." }]
  else
    [{ text := "# Recent " ++ toString ms.length ++ " Matches\n\n" ++
        String.join (ms.map recentMatchBlock) }]

/-- The deaths selector of _get_match_timeline: champion-kill rows whose
details string contains the substring victim. -/
def timelineDeathFilter (e : EventRow) : Bool :=
  e.event_type == "CHAMPION_KILL" && pyInStr "victim" e.details

/-- The kills selector of _get_match_timeline: champion-kill rows whose details
string contains the substring killer. -/
def timelineKillFilter (e : EventRow) : Bool :=
  e.event_type == "CHAMPION_KILL" && pyInStr "killer" e.details

/-- One snapshot line of the timeline report table. -/
def snapshotLine (r : SnapshotRow) : String :=
  "| " ++ toString r.minute ++ " | " ++ toString r.cs ++ " | " ++ toString r.gold ++
  " | " ++ toString r.xp ++ " | " ++ toString r.level ++ " | (" ++
  toString r.position_x ++ ", " ++ toString r.position_y ++ ") |\n"

/-- One death line of the timeline report. -/
def deathLine (e : EventRow) : String :=
  "- **" ++ toString (Int.fdiv e.timestamp 60000) ++ "m**: Death at (" ++
  toString e.position_x ++ ", " ++ toString e.position_y ++ ") - " ++ e.details ++ "\n"

/-- One kill line of the timeline report. -/
def killLine (e : EventRow) : String :=
  "- **" ++ toString (Int.fdiv e.timestamp 60000) ++ "m**: Kill at (" ++
  toString e.position_x ++ ", " ++ toString e.position_y ++ ") - " ++ e.details ++ "\n"

/-- Mirrors _get_match_timeline: reconstruct one match from its snapshots
(sampled every fifth minute) and its events, split by the death/kill selectors
and capped to the first five each. -/
def _get_match_timeline (db : Database) (match_id : String) : List TextContent :=
  match db.matchesTable.find? (fun m => m.match_id == match_id) with
  | none => [{ text := "No match found with ID: " ++ match_id }]
  | some m =>
    let snapshots := orderByMinuteAsc (db.snapshots.filter (fun s => s.match_id == match_id))
    let events := orderByTimestampAsc (db.events.filter (fun e => e.match_id == match_id))
    let base :=
      "# Timeline Analysis: " ++ m.champion ++ " (" ++ (if m.win then "WIN" else "LOSS") ++
      ")\n**Match ID:** " ++ match_id ++ " | **Duration:** " ++
      toString (Int.fdiv m.game_duration 60) ++ "m\n\n"
    let snapPart :=
      if snapshots.isEmpty then ""
      else
        "## Performance Progression\n| Min | CS | Gold | XP | Level | Position |\n" ++
        "|-----|----|----|-------|-------|---------|\n" ++
        String.join ((takeEveryFifth snapshots).map snapshotLine)
    let death_events := events.filter timelineDeathFilter
    let kill_events := events.filter timelineKillFilter
    let eventsPart :=
      if events.isEmpty then ""
      else
        "\n## Key Events (" ++ toString events.length ++ " total)\n" ++
        (if death_events.isEmpty then ""
         else
           "\n### Deaths (" ++ toString death_events.length ++ ")\n" ++
           String.join ((death_events.take 5).map deathLine)) ++
        (if kill_events.isEmpty then ""
         else
           "\n### Kills/Assists (" ++ toString kill_events.length ++ ")\n" ++
           String.join ((kill_events.take 5).map killLine))
    [{ text := base ++ snapPart ++ eventsPart }]

/-- The aggregate values computed by _get_performance_trends over the selected
rows. -/
structure TrendReport where
  totalMatches : Nat
  wins : Nat
  winRate : ℚ
  avgKda : ℚ
  avgCs : ℚ
  avgVision : ℚ
  avgDuration : ℚ
  recentHalf : List PlayerStats
  olderHalf : List PlayerStats
  recentWinRate : ℚ
  olderWinRate : ℚ
  comparison : Option String
  uniqueChampions : Nat
deriving DecidableEq

/-- The trend label of _get_performance_trends: improving when the recent half
win rate is strictly greater, declining when strictly lower, stable when
equal. -/
def trendLabel (recent_win_rate older_win_rate : ℚ) : String :=
  if older_win_rate < recent_win_rate then "📈 Improving"
  else if recent_win_rate < older_win_rate then "📉 Declining"
  else "➡️ Stable"

/-- The trend computation of _get_performance_trends over the already selected
most-recent-first rows: none when no rows were selected; the recent half is the
first floor(n/2) rows, the half win rates guard their divisions behind
nonemptiness, and the comparison label is emitted only when both halves are
nonempty. -/
def computeTrends (recent_matches : List PlayerStats) : Option TrendReport :=
  if recent_matches.isEmpty then none
  else
    let total := recent_matches.length
    let wins := recent_matches.countP (fun m => m.win)
    let win_rate : ℚ := ((wins : ℤ) : ℚ) / ((total : ℤ) : ℚ) * 100
    let avg_kda : ℚ := (recent_matches.map (fun m => m.kda)).sum / ((total : ℤ) : ℚ)
    let avg_cs : ℚ :=
      (((recent_matches.map (fun m => m.cs)).sum : ℤ) : ℚ) / ((total : ℤ) : ℚ)
    let avg_vision : ℚ :=
      (((recent_matches.map (fun m => m.vision_score)).sum : ℤ) : ℚ) / ((total : ℤ) : ℚ)
    let avg_duration : ℚ :=
      (((recent_matches.map (fun m => m.game_duration)).sum : ℤ) : ℚ) /
        ((total : ℤ) : ℚ) / 60
    let recent_half := recent_matches.take (total / 2)
    let older_half := recent_matches.drop (total / 2)
    let recent_win_rate : ℚ :=
      if recent_half.isEmpty then 0
      else ((recent_half.countP (fun m => m.win) : ℤ) : ℚ) /
        ((recent_half.length : ℤ) : ℚ) * 100
    let older_win_rate : ℚ :=
      if older_half.isEmpty then 0
      else ((older_half.countP (fun m => m.win) : ℤ) : ℚ) /
        ((older_half.length : ℤ) : ℚ) * 100
    let comparison : Option String :=
      if 0 < recent_half.length ∧ 0 < older_half.length then
        some (trendLabel recent_win_rate older_win_rate)
      else none
    some
      { totalMatches := total
        wins := wins
        winRate := win_rate
        avgKda := avg_kda
        avgCs := avg_cs
        avgVision := avg_vision
        avgDuration := avg_duration
        recentHalf := recent_half
        olderHalf := older_half
        recentWinRate := recent_win_rate
        olderWinRate := older_win_rate
        comparison := comparison
        uniqueChampions := (recent_matches.map (fun m => m.champion)).dedup.length }

/-- Render the trends report text from the computed aggregates. -/
def renderTrends (r : TrendReport) : String :=
  "# Performance Trends (Last " ++ toString r.totalMatches ++ " matches)\n\n" ++
  "## Overall Statistics\n" ++
  "- **Win Rate:** " ++ toString r.winRate ++ "% (" ++ toString r.wins ++ "/" ++
    toString r.totalMatches ++ ")\n" ++
  "- **Average KDA:** " ++ toString r.avgKda ++ "\n" ++
  "- **Average CS:** " ++ toString r.avgCs ++ "\n" ++
  "- **Average Vision Score:** " ++ toString r.avgVision ++ "\n" ++
  "- **Average Game Duration:** " ++ toString r.avgDuration ++ " minutes\n\n" ++
  "## Trend Analysis\n" ++
  (match r.comparison with
   | some trend =>
     "- **Recent Performance:** " ++ trend ++ "\n" ++
     "  - Recent " ++ toString r.recentHalf.length ++ " matches: " ++
       toString r.recentWinRate ++ "% WR\n" ++
     "  - Previous " ++ toString r.olderHalf.length ++ " matches: " ++
       toString r.olderWinRate ++ "% WR\n\n"
   | none => "") ++
  "- **Champion Pool:** " ++ toString r.uniqueChampions ++ " unique champions\n"

/-- Mirrors _get_performance_trends: select the most recent rows, compute the
aggregates, or report that no data is available. -/
def _get_performance_trends (db : Database) (matchCount : Int) : List TextContent :=
  match computeTrends ((orderByCreationDesc db.matchesTable).take matchCount.toNat) with
  | none => [{ text := "No match data available for trend analysis." }]
  | some r => [{ text := renderTrends r }]

/-- One table line of the champion-performance report. -/
def championLine (rows : List PlayerStats) (c : String) : String :=
  let sel := rows.filter (fun m => m.champion == c)
  let games : ℚ := ((sel.length : ℤ) : ℚ)
  let wins : ℚ := ((sel.countP (fun m => m.win) : ℤ) : ℚ)
  "| " ++ c ++ " | " ++ toString sel.length ++ " | " ++ toString (wins / games * 100) ++
  "% | " ++ toString ((sel.map (fun m => m.kda)).sum / games) ++ " | " ++
  toString ((((sel.map (fun m => m.cs)).sum : ℤ) : ℚ) / games) ++ " | " ++
  toString ((((sel.map (fun m => m.vision_score)).sum : ℤ) : ℚ) / games) ++ " |\n"

/-- Mirrors _get_champion_performance: per-champion aggregates over all (or one
named) champion. -/
def _get_champion_performance (db : Database) (champion : Option String) :
    List TextContent :=
  let base : List PlayerStats :=
    match champion with
    | some c => db.matchesTable.filter (fun m => m.champion == c)
    | none => db.matchesTable
  let champs := (base.map (fun m => m.champion)).dedup
  if champs.isEmpty then [{ text := "No champion data found." }]
  else
    [{ text := "# Champion Performance Analysis\n\n" ++
        "| Champion | Games | Win Rate | Avg KDA | Avg CS | Avg Vision |\n" ++
        "|----------|-------|----------|---------|---------|------------|\n" ++
        String.join (champs.map (championLine base)) }]

/-- Early-game death bucket of _analyze_death_patterns: timestamp below 15
minutes. -/
def deathEarlyB (ts : Int) : Bool := decide (ts < 15 * 60 * 1000)

/-- Mid-game death bucket: timestamp at least 15 and below 25 minutes. -/
def deathMidB (ts : Int) : Bool := decide (15 * 60 * 1000 ≤ ts ∧ ts < 25 * 60 * 1000)

/-- Late-game death bucket: timestamp at least 25 minutes. -/
def deathLateB (ts : Int) : Bool := decide (25 * 60 * 1000 ≤ ts)

/-- River/mid location bucket: both coordinates in the inclusive interval
[4000, 10000]. -/
def riverMidB (x y : Int) : Bool :=
  decide (4000 ≤ x ∧ x ≤ 10000 ∧ 4000 ≤ y ∧ y ≤ 10000)

/-- Jungle/side location bucket: some coordinate outside [4000, 10000]. -/
def jungleSideB (x y : Int) : Bool :=
  decide (x < 4000 ∨ 10000 < x ∨ y < 4000 ∨ 10000 < y)

/-- The death selector of _analyze_death_patterns: champion-kill rows of the
selected matches whose details string matches LIKE percent-victim-percent. -/
def deathSelect (match_ids : List String) (e : EventRow) : Bool :=
  match_ids.contains e.match_id && e.event_type == "CHAMPION_KILL" &&
    pyInStr "victim" e.details

/-- One line of the recent-deaths list. -/
def recentDeathLine (e : EventRow) : String :=
  "- **" ++ toString (Int.fdiv e.timestamp 60000) ++ "m** in match " ++
  strLastEight e.match_id ++ ": Position (" ++ toString e.position_x ++ ", " ++
  toString e.position_y ++ ")\n"

/-- Mirrors _analyze_death_patterns: bucket the selected death rows by game
phase and by map region, and list the five most recent. -/
def _analyze_death_patterns (db : Database) (matchCount : Int) : List TextContent :=
  let match_ids :=
    ((orderByCreationDesc db.matchesTable).take matchCount.toNat).map
      (fun m => m.match_id)
  if match_ids.isEmpty then
    [{ text := "No matches found for death pattern analysis." }]
  else
    let deaths := orderByTimestampAsc (db.events.filter (deathSelect match_ids))
    if deaths.isEmpty then [{ text := "No death data found in recent matches." }]
    else
      let total : ℚ := ((deaths.length : ℤ) : ℚ)
      let early := deaths.countP (fun d => deathEarlyB d.timestamp)
      let mid := deaths.countP (fun d => deathMidB d.timestamp)
      let late := deaths.countP (fun d => deathLateB d.timestamp)
      let river := deaths.countP (fun d => riverMidB d.position_x d.position_y)
      let jungle := deaths.countP (fun d => jungleSideB d.position_x d.position_y)
      [{ text := "# Death Pattern Analysis (Last " ++ toString matchCount ++
          " matches)\n\n**Total Deaths:** " ++ toString deaths.length ++ "\n\n" ++
          "## Death Timing Distribution\n" ++
          "- **Early Game (0-15m):** " ++ toString early ++ " deaths (" ++
            toString (((early : ℤ) : ℚ) / total * 100) ++ "%)\n" ++
          "- **Mid Game (15-25m):** " ++ toString mid ++ " deaths (" ++
            toString (((mid : ℤ) : ℚ) / total * 100) ++ "%)\n" ++
          "- **Late Game (25m+):** " ++ toString late ++ " deaths (" ++
            toString (((late : ℤ) : ℚ) / total * 100) ++ "%)\n\n" ++
          "## Death Location Patterns\n" ++
          "- **River/Mid Area:** " ++ toString river ++ " deaths\n" ++
          "- **Jungle/Side Areas:** " ++ toString jungle ++ " deaths\n\n" ++
          "## Recent Deaths (Last 5)\n" ++
          String.join ((deaths.drop (deaths.length - 5)).map recentDeathLine) }]

/-- One step of the CS progression table of _get_farming_analysis: the
accumulator carries the previous sampled average and the table rows so far. -/
def farmingProgressStep (timeline_rows : List SnapshotRow) (acc : ℚ × String)
    (minute : Int) : ℚ × String :=
  let bucket := timeline_rows.filter (fun s => s.minute == minute)
  if bucket.isEmpty then acc
  else
    let avg : ℚ := (((bucket.map (fun s => s.cs)).sum : ℤ) : ℚ) /
      ((bucket.length : ℤ) : ℚ)
    let rate : ℚ :=
      if 0 < minute then (avg - acc.1) / 5 else avg / ((max 1 minute : ℤ) : ℚ)
    (avg,
      acc.2 ++ "| " ++ toString minute ++ " | " ++ toString avg ++ " | " ++
        toString rate ++ " |\n")

/-- Mirrors _get_farming_analysis: overall CS aggregates, the win/loss split,
the per-champion means, and the sampled CS progression curve. -/
def _get_farming_analysis (db : Database) (matchCount : Int) : List TextContent :=
  let matches_data := (orderByCreationDesc db.matchesTable).take matchCount.toNat
  if matches_data.isEmpty then [{ text := "No farming data available." }]
  else
    let match_ids := matches_data.map (fun m => m.match_id)
    let timeline_rows := db.snapshots.filter (fun s => match_ids.contains s.match_id)
    let n : ℚ := ((matches_data.length : ℤ) : ℚ)
    let total_cs : ℤ := (matches_data.map (fun m => m.cs)).sum
    let avg_cs : ℚ := ((total_cs : ℤ) : ℚ) / n
    let avg_duration : ℚ :=
      (((matches_data.map (fun m => m.game_duration)).sum : ℤ) : ℚ) / n / 60
    let cs_per_min : ℚ := avg_cs / avg_duration
    let wins := matches_data.filter (fun m => m.win)
    let losses := matches_data.filter (fun m => !m.win)
    let outcomePart :=
      if !wins.isEmpty && !losses.isEmpty then
        let win_avg : ℚ := (((wins.map (fun m => m.cs)).sum : ℤ) : ℚ) /
          ((wins.length : ℤ) : ℚ)
        let loss_avg : ℚ := (((losses.map (fun m => m.cs)).sum : ℤ) : ℚ) /
          ((losses.length : ℤ) : ℚ)
        "## CS by Game Outcome\n- **Wins:** " ++ toString win_avg ++ " avg CS (" ++
          toString wins.length ++ " games)\n- **Losses:** " ++ toString loss_avg ++
          " avg CS (" ++ toString losses.length ++ " games)\n- **Difference:** " ++
          toString (win_avg - loss_avg) ++ " CS in wins\n\n"
      else ""
    let champs := (matches_data.map (fun m => m.champion)).dedup
    let champPart :=
      String.join
        (champs.map (fun c =>
          let sel := matches_data.filter (fun m => m.champion == c)
          "- **" ++ c ++ ":** " ++
            toString ((((sel.map (fun m => m.cs)).sum : ℤ) : ℚ) /
              ((sel.length : ℤ) : ℚ)) ++ " avg CS (" ++ toString sel.length ++
            " games)\n"))
    let progressPart :=
      if timeline_rows.isEmpty then ""
      else
        let minutes := sortIntAsc (timeline_rows.map (fun s => s.minute)).dedup
        "\n## CS Progression Patterns\n| Minute | Avg CS | CS/min Rate |\n" ++
        "|--------|--------|-----------|\n" ++
        ((takeEveryFifth minutes).foldl (farmingProgressStep timeline_rows) (0, "")).2
    [{ text := "# Farming Analysis (Last " ++ toString matchCount ++ " matches)\n\n" ++
        "## Overall Farming Performance\n- **Average CS:** " ++ toString avg_cs ++
        "\n- **Average CS/min:** " ++ toString cs_per_min ++ "\n- **Total CS:** " ++
        toString total_cs ++ "\n\n" ++ outcomePart ++ "## CS by Champion\n" ++
        champPart ++ progressPart }]

/-- The six tool names registered by the server. -/
def toolNames : List String :=
  ["get_recent_matches", "get_match_timeline", "get_performance_trends",
   "get_champion_performance", "analyze_death_patterns", "get_farming_analysis"]

/-- The body of the try block of handle_call_tool: dispatch on the tool name;
a missing database file, the missing required match_id argument (KeyError), and
an unknown tool name (ValueError) are errors. -/
def callToolDispatch (name : String) (arguments : Args) (db_path : String)
    (file : Option Database) : Except String (List TextContent) :=
  if name = "get_recent_matches" then
    (get_db_connection db_path file).map
      (fun db => _get_recent_matches db (arguments.limit.getD 10))
  else if name = "get_match_timeline" then
    match arguments.match_id with
    | none => Except.error "\x27match_id\x27"
    | some mid => (get_db_connection db_path file).map (fun db => _get_match_timeline db mid)
  else if name = "get_performance_trends" then
    (get_db_connection db_path file).map
      (fun db => _get_performance_trends db (arguments.matchCount.getD 10))
  else if name = "get_champion_performance" then
    (get_db_connection db_path file).map
      (fun db => _get_champion_performance db arguments.champion)
  else if name = "analyze_death_patterns" then
    (get_db_connection db_path file).map
      (fun db => _analyze_death_patterns db (arguments.matchCount.getD 10))
  else if name = "get_farming_analysis" then
    (get_db_connection db_path file).map
      (fun db => _get_farming_analysis db (arguments.matchCount.getD 10))
  else Except.error ("Unknown tool: " ++ name)

/-- Mirrors handle_call_tool: run the dispatch and turn any raised error into a
single text content prefixed with Error. -/
def handle_call_tool (name : String) (arguments : Args) (db_path : String)
    (file : Option Database) : List TextContent :=
  match callToolDispatch name arguments db_path file with
  | Except.ok res => res
  | Except.error e => [{ text := "Error: " ++ e }]

/- Concrete sample values used to evaluate the definitions on closed inputs. -/

/-- A sample participant with zero deaths for the KDA evaluation. -/
def sampleParticipant : MatchParticipant :=
  { puuid := "me"
    championName := "Ahri"
    kills := 5
    deaths := 0
    assists := 3
    totalMinionsKilled := 150
    neutralMinionsKilled := 20
    goldEarned := 12000
    totalDamageDealtToChampions := 20000
    totalDamageTaken := 15000
    visionScore := 25
    win := true
    teamPosition := "MIDDLE"
    item0 := 1
    item1 := 2
    item2 := 3
    item3 := 4
    item4 := 5
    item5 := 6 }

/-- A sample match document holding sampleParticipant. -/
def sampleMatchData : MatchData :=
  { metadata := { matchId := "NA1_100" }
    info :=
      { gameCreation := 1700000000000
        gameDuration := 1800
        gameMode := "CLASSIC"
        participants := [sampleParticipant] } }

/-- The Match row extracted from sampleMatchData (KDA is (5+3)/1 = 8). -/
def sampleStats : PlayerStats :=
  { match_id := "NA1_100"
    game_creation := 1700000000000
    game_duration := 1800
    game_mode := "CLASSIC"
    champion := "Ahri"
    kills := 5
    deaths := 0
    assists := 3
    kda := pyRound2 (((5 + 3 : ℤ) : ℚ) / ((max 0 1 : ℤ) : ℚ))
    cs := 170
    gold_earned := 12000
    damage_dealt := 20000
    damage_taken := 15000
    vision_score := 25
    win := true
    position := "MIDDLE"
    items := [1, 2, 3, 4, 5, 6] }

/-- A parametrized sample Match row (identifier, creation time, win flag). -/
def sampleRow (mid : String) (creation : Int) (w : Bool) : PlayerStats :=
  { match_id := mid
    game_creation := creation
    game_duration := 1800
    game_mode := "CLASSIC"
    champion := "Ahri"
    kills := 5
    deaths := 2
    assists := 3
    kda := 4
    cs := 170
    gold_earned := 12000
    damage_dealt := 20000
    damage_taken := 15000
    vision_score := 25
    win := w
    position := "MIDDLE"
    items := [1, 2, 3, 4, 5, 6] }

/-- The empty store. -/
def emptyDb : Database := { matchesTable := [], snapshots := [], events := [], nextEventId := 0 }

/-- First payload for the match upsert evaluation. -/
def upsertRow1 : PlayerStats := sampleRow "M1" 1 true

/-- Second payload for the match upsert evaluation: same key, different values. -/
def upsertRow2 : PlayerStats := { sampleRow "M1" 1 false with kills := 9, kda := 6 }

/-- First snapshot payload (minute 5). -/
def upsertSnap1 : Snapshot :=
  { minute := 5, cs := 40, gold := 1800, xp := 2200, level := 6, position_x := 100, position_y := 200 }

/-- Second snapshot payload: same minute, different values. -/
def upsertSnap2 : Snapshot :=
  { minute := 5, cs := 55, gold := 2400, xp := 2900, level := 7, position_x := 300, position_y := 400 }

/-- A sample normalized event for the accumulation evaluation. -/
def sampleEventData : EventData :=
  { timestamp := 30000, event_type := "WARD_PLACED", position_x := 0, position_y := 0, details := "" }

/-- A champion-kill event in which the tracked slot 3 is the killer and slot 7
is the victim. -/
def killerEvent : Event :=
  { type := "CHAMPION_KILL"
    timestamp := 600000
    participantId := none
    killerId := some 3
    victimId := some 7
    assistingParticipantIds := []
    itemId := none
    monsterType := none
    monsterSubType := none
    wardType := none
    position := some (1000, 2000) }

/-- The stored row of killerEvent. -/
def killerEventRow : EventRow := eventRowOf 1 "NA1_1001" (eventDataOf killerEvent)

/-- A timeline info block with no frames whose only participant is not the
tracked player. -/
def sampleTimelineInfo : TimelineInfo :=
  { frames := [], participants := [{ puuid := "someone-else", participantId := 1 }] }

/-- The timeline document around sampleTimelineInfo. -/
def sampleTimelineData : TimelineData := { info := some sampleTimelineInfo }

/-- A snapshot for the vision-score evaluation. -/
def visionSnap : Snapshot :=
  { minute := 1, cs := 10, gold := 500, xp := 300, level := 2, position_x := 100, position_y := 200 }

/-- The stored row of visionSnap. -/
def visionSnapRow : SnapshotRow := snapRowOf "M1" visionSnap

/-- Ten sample Match rows, most recent first: four wins in the first five rows
(80 percent) and two wins in the last five (40 percent). -/
def tenTrendRows : List PlayerStats :=
  [sampleRow "M10" 10 true, sampleRow "M9" 9 true, sampleRow "M8" 8 true,
   sampleRow "M7" 7 true, sampleRow "M6" 6 false, sampleRow "M5" 5 true,
   sampleRow "M4" 4 true, sampleRow "M3" 3 false, sampleRow "M2" 2 false,
   sampleRow "M1" 1 false]

/-- A fallback trend report used only as a getD default. -/
def fallbackTrendReport : TrendReport :=
  { totalMatches := 0
    wins := 0
    winRate := 0
    avgKda := 0
    avgCs := 0
    avgVision := 0
    avgDuration := 0
    recentHalf := []
    olderHalf := []
    recentWinRate := 0
    olderWinRate := 0
    comparison := none
    uniqueChampions := 0 }

/-- The trend report computed over tenTrendRows. -/
def tenTrendReport : TrendReport := (computeTrends tenTrendRows).getD fallbackTrendReport

/-- The empty argument dictionary. -/
def emptyArgs : Args := { limit := none, match_id := none, matchCount := none, champion := none }

/- Theorems. -/

/-- Claim C1: for every resolved participant record the normalizer computes the
KDA field as (kills + assists) / max(deaths, 1) rounded to two decimal places;
when deaths = 0 no division error is possible and KDA is (kills + assists) / 1
rounded. -/
theorem extract_player_stats_kda_spec (md : MatchData) (puuid : String)
    (s : PlayerStats) (h : extract_player_stats md puuid = some s) :
    s.kda = pyRound2 (((s.kills + s.assists : ℤ) : ℚ) / ((max s.deaths 1 : ℤ) : ℚ))
    ∧ (s.deaths = 0 →
        s.kda = pyRound2 (((s.kills + s.assists : ℤ) : ℚ) / ((1 : ℤ) : ℚ))) := by
  unfold extract_player_stats at h
  cases hf : md.info.participants.find? (fun p => p.puuid == puuid) with
  | none => rw [hf] at h; exact absurd h (by simp)
  | some p =>
    rw [hf] at h
    have hs := Option.some.inj h
    subst hs
    refine ⟨rfl, fun h0 => ?_⟩
    have hd : p.deaths = 0 := h0
    have hm : max p.deaths 1 = (1 : ℤ) := by rw [hd]; exact max_eq_right zero_le_one
    show pyRound2 (((p.kills + p.assists : ℤ) : ℚ) / ((max p.deaths 1 : ℤ) : ℚ)) =
      pyRound2 (((p.kills + p.assists : ℤ) : ℚ) / ((1 : ℤ) : ℚ))
    rw [hm]

/-- Witness for C1: the sample match with 5 kills, 0 deaths, 3 assists. -/
theorem extract_player_stats_kda_spec_witness :
    sampleStats.kda =
      pyRound2 (((sampleStats.kills + sampleStats.assists : ℤ) : ℚ) /
        ((max sampleStats.deaths 1 : ℤ) : ℚ))
    ∧ (sampleStats.deaths = 0 →
        sampleStats.kda =
          pyRound2 (((sampleStats.kills + sampleStats.assists : ℤ) : ℚ) /
            ((1 : ℤ) : ℚ))) :=
  extract_player_stats_kda_spec sampleMatchData "me" sampleStats rfl

/-- Claim C3: the relevance filter accepts an event exactly when the tracked
slot is the participant, the killer, or the victim, or the event type is one of
the three elimination types and the slot occurs among its assisting
participants. -/
theorem is_player_event_characterization (event : Event) (participant_id : Int) :
    _is_player_event event participant_id = true ↔
      (event.participantId = some participant_id
        ∨ event.killerId = some participant_id
        ∨ event.victimId = some participant_id
        ∨ ((event.type = "CHAMPION_KILL" ∨ event.type = "ELITE_MONSTER_KILL"
              ∨ event.type = "BUILDING_KILL")
            ∧ participant_id ∈ event.assistingParticipantIds)) := by
  simp [_is_player_event, List.elem_iff, or_assoc, and_assoc]

/-- Claim C5: every death falls in exactly one timing bucket and exactly one
location bucket; river/mid holds exactly when both coordinates are in the
inclusive interval [4000, 10000]; positions (5000, 5000) and (4000, 4000) are
river/mid and (1000, 1000) is jungle/side. -/
theorem death_pattern_buckets_partition (ts x y : Int) :
    (deathEarlyB ts = true ∨ deathMidB ts = true ∨ deathLateB ts = true)
    ∧ ¬(deathEarlyB ts = true ∧ deathMidB ts = true)
    ∧ ¬(deathEarlyB ts = true ∧ deathLateB ts = true)
    ∧ ¬(deathMidB ts = true ∧ deathLateB ts = true)
    ∧ (riverMidB x y = true ↔ (4000 ≤ x ∧ x ≤ 10000 ∧ 4000 ≤ y ∧ y ≤ 10000))
    ∧ (jungleSideB x y = true ↔ ¬(riverMidB x y = true))
    ∧ riverMidB 5000 5000 = true ∧ riverMidB 4000 4000 = true
    ∧ jungleSideB 1000 1000 = true := by
  refine ⟨?_, ?_, ?_, ?_, ?_, ?_, by decide, by decide, by decide⟩ <;>
    simp only [deathEarlyB, deathMidB, deathLateB, riverMidB, jungleSideB,
      decide_eq_true_eq] <;>
    omega

/-- Helper: rows surviving the delete phase of a match upsert never match the
key again. -/
theorem filter_not_key_match (rows : List PlayerStats) (k : String) :
    (rows.filter (fun r => !(r.match_id == k))).filter (fun r => r.match_id == k) = [] := by
  induction rows with
  | nil => rfl
  | cons a as ih =>
    cases h : a.match_id == k <;> simp [List.filter_cons, h, ih]

/-- Helper: after a match upsert, exactly the new row matches its key. -/
theorem filter_key_upsertMatchRow (rows : List PlayerStats) (s : PlayerStats) :
    (upsertMatchRow rows s).filter (fun r => r.match_id == s.match_id) = [s] := by
  unfold upsertMatchRow
  rw [List.filter_append, filter_not_key_match]
  simp [List.filter_cons]

/-- Helper: rows surviving the delete phase of a snapshot upsert never match
the composite key again. -/
theorem filter_not_key_snapshot (rows : List SnapshotRow) (k : String) (mn : Int) :
    (rows.filter (fun x => !(x.match_id == k && x.minute == mn))).filter
      (fun x => x.match_id == k && x.minute == mn) = [] := by
  induction rows with
  | nil => rfl
  | cons a as ih =>
    rw [List.filter_cons]
    cases h : a.match_id == k && a.minute == mn with
    | true =>
      rw [if_neg (by simp)]
      exact ih
    | false =>
      rw [if_pos (by simp), List.filter_cons, h, if_neg (by simp)]
      exact ih

/-- Helper: after a snapshot upsert, exactly the new row matches its composite
key. -/
theorem filter_key_upsertSnapshotRow (rows : List SnapshotRow) (r : SnapshotRow) :
    (upsertSnapshotRow rows r).filter
      (fun x => x.match_id == r.match_id && x.minute == r.minute) = [r] := by
  unfold upsertSnapshotRow
  rw [List.filter_append, filter_not_key_snapshot]
  simp [List.filter_cons]

/-- Helper: the event-row builder emits one row per normalized event. -/
theorem length_eventRowsFrom (mid : String) (n : Nat) (evs : List EventData) :
    (eventRowsFrom mid n evs).length = evs.length := by
  induction evs generalizing n with
  | nil => rfl
  | cons e es ih => simp [eventRowsFrom, ih]

/-- Helper: one timeline write grows the events table by exactly the number of
normalized events. -/
theorem events_length_write_timeline (db : Database) (mid : String)
    (snaps : List Snapshot) (evs : List EventData) :
    (write_timeline_to_database db mid snaps evs).events.length
      = db.events.length + evs.length := by
  unfold write_timeline_to_database
  by_cases hc : (snaps.isEmpty && evs.isEmpty) = true
  · rw [if_pos hc]
    cases evs with
    | nil => simp
    | cons e es => simp at hc
  · rw [if_neg hc]
    simp [length_eventRowsFrom]

/-- Claim C2: upserting a Match row or a TimelineSnapshot row over an existing
key leaves exactly one row for that key holding the second payload, while
re-writing the same event sequence appends fresh TimelineEvent rows, so event
rows accumulate. -/
theorem store_writer_upsert_replacement (db : Database) (r1 r2 : PlayerStats)
    (hm : r1.match_id = r2.match_id) (tdb : Database) (mid : String)
    (s1 s2 : Snapshot) (hs : s1.minute = s2.minute)
    (snaps : List Snapshot) (evs : List EventData) :
    ((write_to_database (write_to_database db [r1]) [r2]).matchesTable.filter
        (fun r => r.match_id == r1.match_id) = [r2])
    ∧ ((write_timeline_to_database (write_timeline_to_database tdb mid [s1] [])
          mid [s2] []).snapshots.filter
        (fun x => x.match_id == mid && x.minute == s1.minute) = [snapRowOf mid s2])
    ∧ ((write_timeline_to_database (write_timeline_to_database tdb mid snaps evs)
          mid snaps evs).events.length = tdb.events.length + 2 * evs.length) := by
  refine ⟨?_, ?_, ?_⟩
  · rw [hm]
    have hrw : (write_to_database (write_to_database db [r1]) [r2]).matchesTable
        = upsertMatchRow (upsertMatchRow db.matchesTable r1) r2 := rfl
    rw [hrw]
    exact filter_key_upsertMatchRow (upsertMatchRow db.matchesTable r1) r2
  · rw [hs]
    have hrw : (write_timeline_to_database (write_timeline_to_database tdb mid [s1] [])
        mid [s2] []).snapshots
        = upsertSnapshotRow (upsertSnapshotRow tdb.snapshots (snapRowOf mid s1))
            (snapRowOf mid s2) := rfl
    rw [hrw]
    exact filter_key_upsertSnapshotRow
      (upsertSnapshotRow tdb.snapshots (snapRowOf mid s1)) (snapRowOf mid s2)
  · rw [events_length_write_timeline, events_length_write_timeline]
    omega

/-- Witness for C2: a concrete double upsert of a match row and a snapshot row,
and a double write of one event. -/
theorem store_writer_upsert_replacement_witness :
    ((write_to_database (write_to_database emptyDb [upsertRow1]) [upsertRow2]).matchesTable.filter
        (fun r => r.match_id == upsertRow1.match_id) = [upsertRow2])
    ∧ ((write_timeline_to_database (write_timeline_to_database emptyDb "M1" [upsertSnap1] [])
          "M1" [upsertSnap2] []).snapshots.filter
        (fun x => x.match_id == "M1" && x.minute == upsertSnap1.minute)
          = [snapRowOf "M1" upsertSnap2])
    ∧ ((write_timeline_to_database
          (write_timeline_to_database emptyDb "M1" [upsertSnap1] [sampleEventData])
          "M1" [upsertSnap1] [sampleEventData]).events.length
        = emptyDb.events.length + 2 * [sampleEventData].length) :=
  store_writer_upsert_replacement emptyDb upsertRow1 upsertRow2 rfl emptyDb "M1"
    upsertSnap1 upsertSnap2 rfl [upsertSnap1] [sampleEventData]

/-- Claim C4 (refuted on the code): killerEvent is a stored champion-kill event
in which the tracked slot 3 is the killer and not the victim, yet its details
string contains the substring victim (it is a dict key), so the deaths selector
of the timeline report and the death selector of the death-pattern report both
accept it: the displayed deaths are not exactly the events in which the tracked
player is the victim. -/
theorem champion_kill_details_misclassified_as_death :
    _is_player_event killerEvent 3 = true
    ∧ killerEvent.killerId = some 3
    ∧ killerEvent.victimId = some 7
    ∧ _extract_event_details killerEvent =
        "\x7b\x27killer\x27: 3, \x27victim\x27: 7, \x27assistants\x27: []\x7d"
    ∧ timelineDeathFilter killerEventRow = true
    ∧ timelineKillFilter killerEventRow = true
    ∧ deathSelect ["NA1_1001"] killerEventRow = true := by decide

/-- Claim C7: timeline normalization returns empty snapshot and event sequences
when the tracked identifier is absent from the participants or when the frame
list is empty. -/
theorem extract_timeline_empty_cases (td : TimelineData) (puuid : String)
    (info : TimelineInfo) (h : td.info = some info) :
    ((∀ p ∈ info.participants, p.puuid ≠ puuid) →
      extract_timeline_data td puuid = ([], []))
    ∧ (info.frames = [] → extract_timeline_data td puuid = ([], [])) := by
  cases td with
  | mk inf =>
    have h2 : inf = some info := h
    subst h2
    constructor
    · intro habs
      show (match (info.participants.find? (fun p => p.puuid == puuid)).map
          (fun p => p.participantId) with
        | none => (([] : List Snapshot), ([] : List EventData))
        | some participant_id =>
          if participant_id = 0 then ([], [])
          else info.frames.foldl (processFrame participant_id) ([], [])) = ([], [])
      have hf : info.participants.find? (fun p => p.puuid == puuid) = none := by
        rw [List.find?_eq_none]
        intro p hp
        simp [habs p hp]
      rw [hf]
      rfl
    · intro hfr
      show (match (info.participants.find? (fun p => p.puuid == puuid)).map
          (fun p => p.participantId) with
        | none => (([] : List Snapshot), ([] : List EventData))
        | some participant_id =>
          if participant_id = 0 then ([], [])
          else info.frames.foldl (processFrame participant_id) ([], [])) = ([], [])
      cases hf : (info.participants.find? (fun p => p.puuid == puuid)).map
          (fun p => p.participantId) with
      | none => rfl
      | some pid =>
        rw [hfr]
        show (if pid = 0 then (([] : List Snapshot), ([] : List EventData))
          else List.foldl (processFrame pid) ([], []) ([] : List Frame)) = ([], [])
        by_cases h0 : pid = 0
        · rw [if_pos h0]
        · rw [if_neg h0]
          rfl

/-- Witness for C7: a document whose only participant is not the tracked
player yields empty sequences. -/
theorem extract_timeline_empty_cases_witness :
    extract_timeline_data sampleTimelineData "me" = ([], []) :=
  (extract_timeline_empty_cases sampleTimelineData "me" sampleTimelineInfo rfl).1
    (by decide)

/-- Helper: folding snapshot upserts only ever adds rows whose vision_score
column is the constant 0. -/
theorem mem_foldl_upsertSnapshotRow (mid : String) (snaps : List Snapshot)
    (r : SnapshotRow) :
    ∀ acc : List SnapshotRow,
      r ∈ snaps.foldl (fun a s => upsertSnapshotRow a (snapRowOf mid s)) acc →
      r ∈ acc ∨ r.vision_score = 0 := by
  induction snaps with
  | nil => exact fun acc h => Or.inl h
  | cons s ss ih =>
    intro acc h
    rcases ih (upsertSnapshotRow acc (snapRowOf mid s)) h with hmem | hv
    · unfold upsertSnapshotRow at hmem
      rcases List.mem_append.mp hmem with hl | hr
      · exact Or.inl (List.mem_of_mem_filter hl)
      · have he : r = snapRowOf mid s := by simpa using hr
        right
        rw [he]
        rfl
    · exact Or.inr hv

/-- Claim C9: every snapshot row added by the timeline writer has its
vision-score column equal to 0, whatever the input document contained (the
normalizer emits no vision field and the writer stores the constant 0). -/
theorem snapshot_vision_score_zero (db : Database) (match_id : String)
    (snapshots : List Snapshot) (events : List EventData) (r : SnapshotRow)
    (h : r ∈ (write_timeline_to_database db match_id snapshots events).snapshots) :
    r ∈ db.snapshots ∨ r.vision_score = 0 := by
  unfold write_timeline_to_database at h
  by_cases hc : (snapshots.isEmpty && events.isEmpty) = true
  · rw [if_pos hc] at h
    exact Or.inl h
  · rw [if_neg hc] at h
    exact mem_foldl_upsertSnapshotRow match_id snapshots r db.snapshots h

/-- Witness for C9: the row written for visionSnap carries vision_score 0. -/
theorem snapshot_vision_score_zero_witness :
    visionSnapRow ∈ (write_timeline_to_database emptyDb "M1" [visionSnap] []).snapshots
    ∧ (visionSnapRow ∈ emptyDb.snapshots ∨ visionSnapRow.vision_score = 0) := by
  have hmem :
      visionSnapRow ∈ (write_timeline_to_database emptyDb "M1" [visionSnap] []).snapshots := by
    decide
  exact ⟨hmem, snapshot_vision_score_zero emptyDb "M1" [visionSnap] [] visionSnapRow hmem⟩

/-- Claim C10: with exactly one stored match the trends report still succeeds:
the recent half is empty, the comparison section is omitted, and the guarded
half win rate is the literal 0 rather than a division. -/
theorem performance_trends_single_match (m : PlayerStats) :
    ∃ r : TrendReport,
      computeTrends [m] = some r
      ∧ r.recentHalf = []
      ∧ r.olderHalf = [m]
      ∧ r.comparison = none
      ∧ r.recentWinRate = 0
      ∧ _get_performance_trends
          { matchesTable := [m], snapshots := [], events := [], nextEventId := 0 } 10
          = [{ text := renderTrends r }] := by
  refine ⟨_, rfl, ?_, ?_, ?_, ?_, ?_⟩ <;>
    simp [_get_performance_trends, computeTrends, orderByCreationDesc,
      insertByCreationDesc, List.take_of_length_le]

/-- Helper: the trend label is improving exactly for a strictly greater recent
win rate, declining exactly for a strictly lower one, stable exactly for equal
rates. -/
theorem trendLabel_spec (a b : ℚ) :
    (trendLabel a b = "📈 Improving" ↔ b < a)
    ∧ (trendLabel a b = "📉 Declining" ↔ a < b)
    ∧ (trendLabel a b = "➡️ Stable" ↔ a = b) := by
  unfold trendLabel
  rcases lt_trichotomy b a with h | h | h
  · rw [if_pos h]
    exact ⟨iff_of_true rfl h, iff_of_false (by decide) (lt_asymm h),
      iff_of_false (by decide) (ne_of_gt h)⟩
  · rw [if_neg (by rw [h]; exact lt_irrefl a), if_neg (by rw [h]; exact lt_irrefl a)]
    exact ⟨iff_of_false (by decide) (by rw [h]; exact lt_irrefl a),
      iff_of_false (by decide) (by rw [h]; exact lt_irrefl a),
      iff_of_true rfl h.symm⟩
  · rw [if_neg (lt_asymm h), if_pos h]
    exact ⟨iff_of_false (by decide) (lt_asymm h), iff_of_true rfl h,
      iff_of_false (by decide) (ne_of_lt h)⟩

/-- Claim C6: the recent half is the first floor(n/2) selected rows, the older
half the rest, and when both halves are nonempty the emitted label is improving
exactly when the recent win rate is strictly greater, declining exactly when
strictly lower, stable exactly when equal. -/
theorem performance_trend_split_and_label (rows : List PlayerStats)
    (r : TrendReport) (h : computeTrends rows = some r) :
    r.recentHalf = rows.take (rows.length / 2)
    ∧ r.olderHalf = rows.drop (rows.length / 2)
    ∧ (r.recentHalf ≠ [] → r.olderHalf ≠ [] →
        ∃ l, r.comparison = some l
          ∧ (l = "📈 Improving" ↔ r.olderWinRate < r.recentWinRate)
          ∧ (l = "📉 Declining" ↔ r.recentWinRate < r.olderWinRate)
          ∧ (l = "➡️ Stable" ↔ r.recentWinRate = r.olderWinRate)) := by
  unfold computeTrends at h
  by_cases he : rows.isEmpty = true
  · rw [if_pos he] at h
    exact absurd h (by simp)
  · rw [if_neg he] at h
    have hr := Option.some.inj h
    subst hr
    dsimp only
    refine ⟨rfl, rfl, fun h1 h2 => ?_⟩
    have hc : 0 < (rows.take (rows.length / 2)).length
        ∧ 0 < (rows.drop (rows.length / 2)).length :=
      ⟨List.length_pos.mpr h1, List.length_pos.mpr h2⟩
    rw [if_pos hc]
    exact ⟨_, rfl, trendLabel_spec _ _⟩

/-- Witness for C6: over the ten sample rows the recent-half win rate is 80,
the older-half win rate is 40, and the emitted label is the improving one. -/
theorem performance_trend_split_and_label_witness :
    tenTrendReport.recentHalf = tenTrendRows.take (tenTrendRows.length / 2)
    ∧ tenTrendReport.recentWinRate = 80
    ∧ tenTrendReport.olderWinRate = 40
    ∧ tenTrendReport.comparison = some "📈 Improving" := by
  have hsome : computeTrends tenTrendRows = some tenTrendReport := rfl
  have hmain := performance_trend_split_and_label tenTrendRows tenTrendReport hsome
  have h80 : tenTrendReport.recentWinRate = 80 := by
    norm_num [tenTrendReport, computeTrends, tenTrendRows, sampleRow, fallbackTrendReport]
  have h40 : tenTrendReport.olderWinRate = 40 := by
    norm_num [tenTrendReport, computeTrends, tenTrendRows, sampleRow, fallbackTrendReport]
  have hne1 : tenTrendReport.recentHalf ≠ [] := by
    apply List.ne_nil_of_length_pos
    rw [hmain.1]
    norm_num [List.length_take, tenTrendRows]
  have hne2 : tenTrendReport.olderHalf ≠ [] := by
    apply List.ne_nil_of_length_pos
    rw [hmain.2.1]
    norm_num [List.length_drop, tenTrendRows]
  obtain ⟨l, hl, hiff⟩ := hmain.2.2 hne1 hne2
  refine ⟨hmain.1, h80, h40, ?_⟩
  rw [hl, hiff.1.mpr (by rw [h80, h40]; norm_num)]

/-- Helper: a character list is an initial segment of itself extended by any
suffix. -/
theorem listIsStart_self_append (l m : List Char) : listIsStart l (l ++ m) = true := by
  induction l with
  | nil => rfl
  | cons a as ih => simp [listIsStart, ih]

/-- Helper: the character data of an appended string is the appended data. -/
theorem string_data_append (a b : String) : (a ++ b).data = a.data ++ b.data := by
  cases a
  cases b
  rfl

/-- Helper: every message produced by the error boundary begins with the Error
marker. -/
theorem strStarts_error (e : String) : strStarts "Error:" ("Error: " ++ e) = true := by
  have h1 : "Error: " ++ e = "Error:" ++ (" " ++ e) := by
    cases e
    rfl
  rw [h1]
  unfold strStarts
  rw [string_data_append]
  exact listIsStart_self_append _ _

/-- Helper: with the database file absent every tool dispatch raises. -/
theorem dispatch_file_none (name : String) (arguments : Args) (db_path : String) :
    ∃ e, callToolDispatch name arguments db_path none = Except.error e := by
  unfold callToolDispatch
  split_ifs
  · exact ⟨_, rfl⟩
  · cases arguments.match_id with
    | none => exact ⟨_, rfl⟩
    | some mid => exact ⟨_, rfl⟩
  · exact ⟨_, rfl⟩
  · exact ⟨_, rfl⟩
  · exact ⟨_, rfl⟩
  · exact ⟨_, rfl⟩
  · exact ⟨_, rfl⟩

/-- Helper: an unregistered tool name dispatches to the unknown-tool error. -/
theorem dispatch_unknown_tool (name : String) (arguments : Args) (db_path : String)
    (file : Option Database) (h : name ∉ toolNames) :
    callToolDispatch name arguments db_path file
      = Except.error ("Unknown tool: " ++ name) := by
  have h1 : ¬name = "get_recent_matches" := fun hh => h (by rw [hh]; decide)
  have h2 : ¬name = "get_match_timeline" := fun hh => h (by rw [hh]; decide)
  have h3 : ¬name = "get_performance_trends" := fun hh => h (by rw [hh]; decide)
  have h4 : ¬name = "get_champion_performance" := fun hh => h (by rw [hh]; decide)
  have h5 : ¬name = "analyze_death_patterns" := fun hh => h (by rw [hh]; decide)
  have h6 : ¬name = "get_farming_analysis" := fun hh => h (by rw [hh]; decide)
  unfold callToolDispatch
  rw [if_neg h1, if_neg h2, if_neg h3, if_neg h4, if_neg h5, if_neg h6]

/-- Claim C8: the tool-dispatch handler always returns a list of text contents;
whenever the dispatch raises, the handler returns exactly one text beginning
with the Error marker — in particular for a missing database file, for an
unknown tool name, and for a missing required match_id argument. -/
theorem handle_call_tool_error_boundary (name : String) (arguments : Args)
    (db_path : String) (file : Option Database) :
    (∀ e, callToolDispatch name arguments db_path file = Except.error e →
        handle_call_tool name arguments db_path file = [{ text := "Error: " ++ e }]
        ∧ strStarts "Error:" ("Error: " ++ e) = true)
    ∧ (file = none →
        ∀ t ∈ handle_call_tool name arguments db_path file,
          strStarts "Error:" t.text = true)
    ∧ (name ∉ toolNames →
        ∀ t ∈ handle_call_tool name arguments db_path file,
          strStarts "Error:" t.text = true)
    ∧ (name = "get_match_timeline" → arguments.match_id = none →
        ∀ t ∈ handle_call_tool name arguments db_path file,
          strStarts "Error:" t.text = true) := by
  have herr : ∀ e, callToolDispatch name arguments db_path file = Except.error e →
      handle_call_tool name arguments db_path file = [{ text := "Error: " ++ e }] := by
    intro e he
    unfold handle_call_tool
    rw [he]
  refine ⟨fun e he => ⟨herr e he, strStarts_error e⟩, ?_, ?_, ?_⟩
  · intro hf t ht
    subst hf
    obtain ⟨e, he⟩ := dispatch_file_none name arguments db_path
    rw [herr e he] at ht
    have ht2 : t = { text := "Error: " ++ e } := by simpa using ht
    rw [ht2]
    exact strStarts_error e
  · intro hu t ht
    rw [herr ("Unknown tool: " ++ name)
      (dispatch_unknown_tool name arguments db_path file hu)] at ht
    have ht2 : t = { text := "Error: " ++ ("Unknown tool: " ++ name) } := by simpa using ht
    rw [ht2]
    exact strStarts_error ("Unknown tool: " ++ name)
  · intro hn ha t ht
    have he : callToolDispatch name arguments db_path file
        = Except.error "\x27match_id\x27" := by
      subst hn
      unfold callToolDispatch
      rw [if_neg (by decide), if_pos rfl, ha]
    rw [herr _ he] at ht
    have ht2 : t = { text := "Error: " ++ "\x27match_id\x27" } := by simpa using ht
    rw [ht2]
    exact strStarts_error "\x27match_id\x27"

/-- Witness for C8: calling an unregistered tool name with no database file
yields a single error text. -/
theorem handle_call_tool_error_boundary_witness :
    handle_call_tool "nope" emptyArgs "insights.db" none
      = [{ text := "Error: " ++ "Unknown tool: nope" }]
    ∧ strStarts "Error:" ("Error: " ++ "Unknown tool: nope") = true :=
  (handle_call_tool_error_boundary "nope" emptyArgs "insights.db" none).1
    "Unknown tool: nope" rfl

end SummonerInsights
